import Mathlib

/-!
# dump1090.h : constants, enumerations and ring indices

A shallow embedding of the parts of `dump1090.h` that fix the data model of the
receiver: the `#define` sizing constants, the `datasource_t` and `addrtype_t`
enumerations, the non-ICAO address flag, and the two indices of the
magnitude-buffer ring kept in the global `Modes` structure.

C enumerators without an explicit initialiser take the values 0, 1, 2, ... in
declaration order; each enumeration is an inductive type together with a `val`
function giving that number.  Unsigned quantities are natural numbers, with the
width made explicit where it matters.
-/

namespace Dump1090

/-! ## `#define` constants (dump1090.h, lines 90-116) -/

/-- `#define MODES_RTL_BUFFERS 16` : number of RTL buffers. -/
def MODES_RTL_BUFFERS : Nat := 16

/-- `#define MODES_RTL_BUF_SIZE (16*16384)` : 256k. -/
def MODES_RTL_BUF_SIZE : Nat := 16 * 16384

/-- `#define MODES_MAG_BUF_SAMPLES (MODES_RTL_BUF_SIZE / 2)`. -/
def MODES_MAG_BUF_SAMPLES : Nat := MODES_RTL_BUF_SIZE / 2

/-- `#define MODES_MAG_BUFFERS 12` : number of magnitude buffers. -/
def MODES_MAG_BUFFERS : Nat := 12

/-- `#define MODEAC_MSG_BYTES 2`. -/
def MODEAC_MSG_BYTES : Nat := 2

/-- `sizeof(uint16_t)`. -/
def sizeof_uint16_t : Nat := 2

/-- `#define MODES_PREAMBLE_US 8` : microseconds = bits. -/
def MODES_PREAMBLE_US : Nat := 8

/-- `#define MODES_PREAMBLE_SAMPLES (MODES_PREAMBLE_US * 2)`. -/
def MODES_PREAMBLE_SAMPLES : Nat := MODES_PREAMBLE_US * 2

/-- `#define MODES_PREAMBLE_SIZE (MODES_PREAMBLE_SAMPLES * sizeof(uint16_t))`. -/
def MODES_PREAMBLE_SIZE : Nat := MODES_PREAMBLE_SAMPLES * sizeof_uint16_t

/-- `#define MODES_LONG_MSG_BYTES 14`. -/
def MODES_LONG_MSG_BYTES : Nat := 14

/-- `#define MODES_SHORT_MSG_BYTES 7`. -/
def MODES_SHORT_MSG_BYTES : Nat := 7

/-- `#define MODES_LONG_MSG_BITS (MODES_LONG_MSG_BYTES * 8)`. -/
def MODES_LONG_MSG_BITS : Nat := MODES_LONG_MSG_BYTES * 8

/-- `#define MODES_SHORT_MSG_BITS (MODES_SHORT_MSG_BYTES * 8)`. -/
def MODES_SHORT_MSG_BITS : Nat := MODES_SHORT_MSG_BYTES * 8

/-- `#define MODES_LONG_MSG_SAMPLES (MODES_LONG_MSG_BITS * 2)`. -/
def MODES_LONG_MSG_SAMPLES : Nat := MODES_LONG_MSG_BITS * 2

/-- `#define MODES_SHORT_MSG_SAMPLES (MODES_SHORT_MSG_BITS * 2)`. -/
def MODES_SHORT_MSG_SAMPLES : Nat := MODES_SHORT_MSG_BITS * 2

/-- `#define MODES_LONG_MSG_SIZE (MODES_LONG_MSG_SAMPLES * sizeof(uint16_t))`. -/
def MODES_LONG_MSG_SIZE : Nat := MODES_LONG_MSG_SAMPLES * sizeof_uint16_t

/-- `#define MODES_SHORT_MSG_SIZE (MODES_SHORT_MSG_SAMPLES * sizeof(uint16_t))`. -/
def MODES_SHORT_MSG_SIZE : Nat := MODES_SHORT_MSG_SAMPLES * sizeof_uint16_t

/-- `#define MODES_OS_PREAMBLE_SAMPLES (20)`. -/
def MODES_OS_PREAMBLE_SAMPLES : Nat := 20

/-- `#define MODES_OS_PREAMBLE_SIZE (MODES_OS_PREAMBLE_SAMPLES * sizeof(uint16_t))`. -/
def MODES_OS_PREAMBLE_SIZE : Nat := MODES_OS_PREAMBLE_SAMPLES * sizeof_uint16_t

/-- `#define MODES_OS_LONG_MSG_SAMPLES (268)`. -/
def MODES_OS_LONG_MSG_SAMPLES : Nat := 268

/-- `#define MODES_OS_SHORT_MSG_SAMPLES (135)`. -/
def MODES_OS_SHORT_MSG_SAMPLES : Nat := 135

/-- `#define MODES_OS_LONG_MSG_SIZE (MODES_LONG_MSG_SAMPLES * sizeof(uint16_t))`. -/
def MODES_OS_LONG_MSG_SIZE : Nat := MODES_LONG_MSG_SAMPLES * sizeof_uint16_t

/-- `#define MODES_OS_SHORT_MSG_SIZE (MODES_SHORT_MSG_SAMPLES * sizeof(uint16_t))`. -/
def MODES_OS_SHORT_MSG_SIZE : Nat := MODES_SHORT_MSG_SAMPLES * sizeof_uint16_t

/-! ## `datasource_t` (dump1090.h, lines 126-135) -/

/-- Where did a bit of data arrive from?  In order of increasing priority. -/
inductive datasource_t where
  /-- data is not valid -/
  | SOURCE_INVALID
  /-- A/C message -/
  | SOURCE_MODE_AC
  /-- derived from mlat -/
  | SOURCE_MLAT
  /-- data from a Mode S message, no full CRC -/
  | SOURCE_MODE_S
  /-- data from a Mode S message with full CRC -/
  | SOURCE_MODE_S_CHECKED
  /-- data from a TIS-B extended squitter message -/
  | SOURCE_TISB
  /-- data from a ADS-B extended squitter message -/
  | SOURCE_ADSB
  deriving DecidableEq, Repr

namespace datasource_t

/-- The integer value the C compiler gives each enumerator (declaration order from 0). -/
def val : datasource_t → Nat
  | SOURCE_INVALID => 0
  | SOURCE_MODE_AC => 1
  | SOURCE_MLAT => 2
  | SOURCE_MODE_S => 3
  | SOURCE_MODE_S_CHECKED => 4
  | SOURCE_TISB => 5
  | SOURCE_ADSB => 6

/-- Every enumerator of `datasource_t`, in declaration order. -/
def all : List datasource_t :=
  [SOURCE_INVALID, SOURCE_MODE_AC, SOURCE_MLAT, SOURCE_MODE_S,
   SOURCE_MODE_S_CHECKED, SOURCE_TISB, SOURCE_ADSB]

end datasource_t

/-! ## `addrtype_t` (dump1090.h, lines 137-154) -/

/-- What sort of address is this and who sent it?  (Earlier values are higher priority.) -/
inductive addrtype_t where
  /-- Mode S or ADS-B, ICAO address, transponder sourced -/
  | ADDR_ADSB_ICAO
  /-- ADS-B, ICAO address, non-transponder -/
  | ADDR_ADSB_ICAO_NT
  /-- ADS-R, ICAO address -/
  | ADDR_ADSR_ICAO
  /-- TIS-B, ICAO address -/
  | ADDR_TISB_ICAO
  /-- ADS-B, other address format -/
  | ADDR_ADSB_OTHER
  /-- ADS-R, other address format -/
  | ADDR_ADSR_OTHER
  /-- TIS-B, Mode A code + track file number -/
  | ADDR_TISB_TRACKFILE
  /-- TIS-B, other address format -/
  | ADDR_TISB_OTHER
  /-- Mode A -/
  | ADDR_MODE_A
  /-- unknown address format -/
  | ADDR_UNKNOWN
  deriving DecidableEq, Repr

namespace addrtype_t

/-- The integer value the C compiler gives each enumerator (declaration order from 0). -/
def val : addrtype_t → Nat
  | ADDR_ADSB_ICAO => 0
  | ADDR_ADSB_ICAO_NT => 1
  | ADDR_ADSR_ICAO => 2
  | ADDR_TISB_ICAO => 3
  | ADDR_ADSB_OTHER => 4
  | ADDR_ADSR_OTHER => 5
  | ADDR_TISB_TRACKFILE => 6
  | ADDR_TISB_OTHER => 7
  | ADDR_MODE_A => 8
  | ADDR_UNKNOWN => 9

/-- The address types whose enumerator comment says they carry an ICAO address. -/
def isICAO : addrtype_t → Bool
  | ADDR_ADSB_ICAO => true
  | ADDR_ADSB_ICAO_NT => true
  | ADDR_ADSR_ICAO => true
  | ADDR_TISB_ICAO => true
  | _ => false

/-- The priority list as the specification words it, highest priority first:
`ADSB_ICAO`, `ADSB_ICAO_NT`, `ADSR_ICAO`, `TISB_ICAO`, `ADSB_OTHER`, `ADSR_OTHER`,
`TISB_TrackFile`, `TISB_OTHER`, `ModeA`, `Unknown`. -/
def specPriorityOrder : List addrtype_t :=
  [ADDR_ADSB_ICAO, ADDR_ADSB_ICAO_NT, ADDR_ADSR_ICAO, ADDR_TISB_ICAO, ADDR_ADSB_OTHER,
   ADDR_ADSR_OTHER, ADDR_TISB_TRACKFILE, ADDR_TISB_OTHER, ADDR_MODE_A, ADDR_UNKNOWN]

/-- Position of an address type in the specification's priority list
(0 is the highest priority). -/
def specRank (a : addrtype_t) : Nat := specPriorityOrder.indexOf a

end addrtype_t

/-! ## Flags, timing and history constants (dump1090.h, lines 192-212) -/

/-- `#define MODES_NON_ICAO_ADDRESS (1<<24)` : set on addresses to indicate they are
not ICAO addresses. -/
def MODES_NON_ICAO_ADDRESS : Nat := 1 <<< 24

/-- Number of value bits of the `uint32_t addr` field of `struct modesMessage`. -/
def addr_width : Nat := 32

/-- `#define MODES_INTERACTIVE_REFRESH_TIME 250` : milliseconds. -/
def MODES_INTERACTIVE_REFRESH_TIME : Nat := 250

/-- `#define MODES_INTERACTIVE_DISPLAY_TTL 60000` : delete from display after 60 seconds. -/
def MODES_INTERACTIVE_DISPLAY_TTL : Nat := 60000

/-- `#define HISTORY_SIZE 120`. -/
def HISTORY_SIZE : Nat := 120

/-- `#define HISTORY_INTERVAL 30000`. -/
def HISTORY_INTERVAL : Nat := 30000

/-! ## The global `Modes` structure and `struct modesMessage` (lines 251-351) -/

/-- The fields of the global `Modes` structure that index its two rings. -/
structure Modes where
  /-- `unsigned first_free_buffer` : entry in `mag_buffers` that will next be filled
  with input. -/
  first_free_buffer : Nat
  /-- `unsigned first_filled_buffer` : entry in `mag_buffers` that has valid data and
  will be demodulated next; if equal to the free index there is no unprocessed data. -/
  first_filled_buffer : Nat
  /-- `uint64_t interactive_display_ttl` : interactive mode, TTL display. -/
  interactive_display_ttl : Nat
  /-- `int json_aircraft_history_next`. -/
  json_aircraft_history_next : Int
  deriving DecidableEq, Repr

namespace Modes

/-- Declared length of `struct mag_buf mag_buffers[MODES_MAG_BUFFERS]`. -/
def mag_buffers_length : Nat := MODES_MAG_BUFFERS

/-- Declared length of `json_aircraft_history[HISTORY_SIZE]`. -/
def json_aircraft_history_length : Nat := HISTORY_SIZE

/-- Number of value bits of the `uint64_t interactive_display_ttl` field. -/
def interactive_display_ttl_width : Nat := 64

end Modes

namespace modesMessage

/-- Declared length of `unsigned char msg[MODES_LONG_MSG_BYTES]`. -/
def msg_length : Nat := MODES_LONG_MSG_BYTES

/-- Declared length of `unsigned char verbatim[MODES_LONG_MSG_BYTES]`. -/
def verbatim_length : Nat := MODES_LONG_MSG_BYTES

end modesMessage

/-! ## The magnitude-buffer ring seen through its two indices -/

namespace Modes

/-- Modelled from the spec: the index that follows `i` around the ring of
`MODES_MAG_BUFFERS` slots.  The reader and the demodulator loop that advance
`first_free_buffer` and `first_filled_buffer` live in `dump1090.c` and the SDR
drivers, which are not part of this header; the specification only says that the
producer advances one index and the consumer the other around a fixed-size ring. -/
def nextBuffer (i : Nat) : Nat := (i + 1) % MODES_MAG_BUFFERS

/-- Modelled from the spec: the slots met when walking the ring from `i` until the
index `stop` is reached, taking at most `fuel` steps. -/
def slotsFrom : Nat → Nat → Nat → List Nat
  | 0, _, _ => []
  | fuel + 1, i, stop => if i = stop then [] else i :: slotsFrom fuel (nextBuffer i) stop

/-- Modelled from the spec: the filled (unprocessed) slots of the ring, oldest first:
those from `first_filled_buffer`, the entry "that has valid data and will be
demodulated next", up to but not including `first_free_buffer`, the entry "that will
next be filled with input".  One lap of the ring is enough fuel. -/
def filledSlots (m : Modes) : List Nat :=
  slotsFrom MODES_MAG_BUFFERS m.first_filled_buffer m.first_free_buffer

/-- The number of filled slots in closed form, to be compared with the walk
`filledSlots`: `(first_free_buffer - first_filled_buffer) mod MODES_MAG_BUFFERS`,
computed over the integers (no wrap-around of the difference). -/
def filledCount (m : Modes) : Int :=
  ((m.first_free_buffer : Int) - (m.first_filled_buffer : Int)) % (MODES_MAG_BUFFERS : Int)

/-- A ring state with five unprocessed buffers that wrap around the end of the ring:
the consumer is at slot 9, the producer at slot 2. -/
def wrappedState : Modes :=
  { first_free_buffer := 2, first_filled_buffer := 9,
    interactive_display_ttl := MODES_INTERACTIVE_DISPLAY_TTL,
    json_aircraft_history_next := 0 }

end Modes

/-! ## Sample rate of the oversampled demodulator -/

/-- Modelled from the spec: the demodulator runs at 2.4 Msps, that is 12/5 samples
per microsecond.  The rate is not a constant of this header (`demod_2400.h` is
included but not shown, and `Modes.sample_rate` is a run-time `double`). -/
def samples_per_us : ℚ := 12 / 5

/-- Exact number of 2.4 Msps samples spanned by the `MODES_PREAMBLE_US` preamble. -/
def preamble_span : ℚ := (MODES_PREAMBLE_US : ℚ) * samples_per_us

/-- Modelled from the spec: the ring state after the producer advances
`first_free_buffer` by one slot without looking at the consumer index ("the producer
advances `first_free`").  The reader that does this is in `dump1090.c` and the SDR
drivers, not in this header. -/
def Modes.advanceFree (m : Modes) : Modes :=
  { m with first_free_buffer := Modes.nextBuffer m.first_free_buffer }

/-- A ring state with eleven unprocessed buffers: the consumer is at slot 9 and the
producer at slot 8, so the next advance of the producer would reach the consumer. -/
def Modes.elevenFilledState : Modes :=
  { first_free_buffer := 8, first_filled_buffer := 9,
    interactive_display_ttl := MODES_INTERACTIVE_DISPLAY_TTL,
    json_aircraft_history_next := 0 }

/-- Exact number of 2.4 Msps samples spanned by a short frame of
`MODES_SHORT_MSG_BITS` bits (one bit per microsecond). -/
def short_msg_span : ℚ := (MODES_SHORT_MSG_BITS : ℚ) * samples_per_us

/-- Exact number of 2.4 Msps samples spanned by a long frame of
`MODES_LONG_MSG_BITS` bits (one bit per microsecond). -/
def long_msg_span : ℚ := (MODES_LONG_MSG_BITS : ℚ) * samples_per_us

/-! ## Theorems -/

open datasource_t addrtype_t

/-! ### Bit-level facts about the non-ICAO flag -/

theorem flag_eq_two_pow : MODES_NON_ICAO_ADDRESS = 2 ^ 24 := by decide

/-- Setting the flag on a 24-bit address adds `2^24` to it. -/
theorem or_flag_eq_add (a : Nat) (h : a < 2 ^ 24) :
    a ||| MODES_NON_ICAO_ADDRESS = 2 ^ 24 + a := by
  have hadd := Nat.mul_add_lt_is_or h 1
  rw [flag_eq_two_pow, Nat.or_comm]
  simpa using hadd.symm

/-- A 24-bit address has the flag bit clear. -/
theorem and_flag_eq_zero (a : Nat) (h : a < 2 ^ 24) : a &&& MODES_NON_ICAO_ADDRESS = 0 := by
  rw [flag_eq_two_pow]
  apply Nat.eq_of_testBit_eq
  intro i
  rw [Nat.testBit_and, Nat.testBit_two_pow, Nat.zero_testBit]
  by_cases hi : 24 = i
  · subst hi; simp [Nat.testBit_lt_two_pow h]
  · simp [hi]

/-- Masking a flagged address with `0xFFFFFF` gives the 24-bit address back. -/
theorem flagged_and_mask (a : Nat) (h : a < 2 ^ 24) :
    (a ||| MODES_NON_ICAO_ADDRESS) &&& 0xFFFFFF = a := by
  rw [or_flag_eq_add a h]
  have hm : (0xFFFFFF : Nat) = 2 ^ 24 - 1 := by norm_num
  rw [hm, Nat.and_pow_two_sub_one_eq_mod]
  omega

/-- A flagged value has the flag bit set. -/
theorem flagged_and_flag (a : Nat) :
    (a ||| MODES_NON_ICAO_ADDRESS) &&& MODES_NON_ICAO_ADDRESS = MODES_NON_ICAO_ADDRESS := by
  apply Nat.eq_of_testBit_eq
  intro i
  simp only [Nat.testBit_and, Nat.testBit_or]
  cases (a.testBit i) <;> cases (MODES_NON_ICAO_ADDRESS.testBit i) <;> rfl

/-! ### Walking the magnitude-buffer ring -/

/-- A walk that stopped before its fuel ran out is unchanged by more fuel. -/
theorem slotsFrom_more_fuel (extra stop : Nat) :
    ∀ (fuel i : Nat), (Modes.slotsFrom fuel i stop).length < fuel →
      Modes.slotsFrom (fuel + extra) i stop = Modes.slotsFrom fuel i stop := by
  intro fuel
  induction fuel with
  | zero => intro i h; exact absurd h (Nat.not_lt_zero _)
  | succ fuel ih =>
    intro i h
    have hs : fuel + 1 + extra = (fuel + extra) + 1 := by omega
    rw [hs]
    by_cases hi : i = stop
    · simp [Modes.slotsFrom, hi]
    · simp only [Modes.slotsFrom, hi, if_false, List.length_cons] at h ⊢
      rw [ih (Modes.nextBuffer i) (by omega)]

set_option maxRecDepth 100000 in
/-- All 144 pairs of in-range indices: the walk from the consumer index to the
producer index is empty exactly when the indices coincide, and its length is the
difference of the indices modulo the ring size. -/
theorem ring_walk_table :
    ∀ free : Fin 12, ∀ filled : Fin 12,
      (Modes.slotsFrom 12 filled.val free.val = [] ↔ filled.val = free.val) ∧
      ((Modes.slotsFrom 12 filled.val free.val).length : Int)
        = ((free.val : Int) - (filled.val : Int)) % 12 := by
  decide

/-! ### The claims -/

/-- C1: the values of `datasource_t` form the strict chain
`SOURCE_INVALID < SOURCE_MODE_AC < SOURCE_MLAT < SOURCE_MODE_S <
SOURCE_MODE_S_CHECKED < SOURCE_TISB < SOURCE_ADSB`; these seven are all the
enumerators (every tag is one of them, their values are exactly 0..6, and distinct
tags have distinct values); `SOURCE_INVALID` is the minimum and `SOURCE_ADSB` the
maximum of every source; and `SOURCE_MODE_AC` is strictly below each of the Mode S
derived tags `SOURCE_MODE_S`, `SOURCE_MODE_S_CHECKED`, `SOURCE_TISB`, `SOURCE_ADSB`. -/
theorem datasource_strict_chain :
    (SOURCE_INVALID.val < SOURCE_MODE_AC.val ∧
      SOURCE_MODE_AC.val < SOURCE_MLAT.val ∧
      SOURCE_MLAT.val < SOURCE_MODE_S.val ∧
      SOURCE_MODE_S.val < SOURCE_MODE_S_CHECKED.val ∧
      SOURCE_MODE_S_CHECKED.val < SOURCE_TISB.val ∧
      SOURCE_TISB.val < SOURCE_ADSB.val) ∧
    datasource_t.all.map datasource_t.val = [0, 1, 2, 3, 4, 5, 6] ∧
    (∀ s : datasource_t, s ∈ datasource_t.all) ∧
    (∀ s t : datasource_t, s.val = t.val ↔ s = t) ∧
    (∀ s : datasource_t, SOURCE_INVALID.val ≤ s.val ∧ s.val ≤ SOURCE_ADSB.val) ∧
    (SOURCE_MODE_AC.val < SOURCE_MODE_S.val ∧
      SOURCE_MODE_AC.val < SOURCE_MODE_S_CHECKED.val ∧
      SOURCE_MODE_AC.val < SOURCE_TISB.val ∧
      SOURCE_MODE_AC.val < SOURCE_ADSB.val) := by
  refine ⟨by decide, by decide, ?_, ?_, ?_, by decide⟩
  · intro s; cases s <;> decide
  · intro s t; cases s <;> cases t <;> decide
  · intro s; cases s <;> decide

/-- C2: the values of `addrtype_t` increase strictly along the specification's
highest-to-lowest priority list `ADDR_ADSB_ICAO < ADDR_ADSB_ICAO_NT < ADDR_ADSR_ICAO <
ADDR_TISB_ICAO < ADDR_ADSB_OTHER < ADDR_ADSR_OTHER < ADDR_TISB_TRACKFILE <
ADDR_TISB_OTHER < ADDR_MODE_A < ADDR_UNKNOWN`; the value of a type is its position in
that list, so of two address types the one with the smaller value is the one listed
earlier (higher priority); every ICAO address type has a smaller value than every
non-ICAO one; and `ADDR_UNKNOWN` has the largest value, strictly above all others. -/
theorem addrtype_priority_order :
    (ADDR_ADSB_ICAO.val < ADDR_ADSB_ICAO_NT.val ∧
      ADDR_ADSB_ICAO_NT.val < ADDR_ADSR_ICAO.val ∧
      ADDR_ADSR_ICAO.val < ADDR_TISB_ICAO.val ∧
      ADDR_TISB_ICAO.val < ADDR_ADSB_OTHER.val ∧
      ADDR_ADSB_OTHER.val < ADDR_ADSR_OTHER.val ∧
      ADDR_ADSR_OTHER.val < ADDR_TISB_TRACKFILE.val ∧
      ADDR_TISB_TRACKFILE.val < ADDR_TISB_OTHER.val ∧
      ADDR_TISB_OTHER.val < ADDR_MODE_A.val ∧
      ADDR_MODE_A.val < ADDR_UNKNOWN.val) ∧
    (∀ a : addrtype_t, a.val = a.specRank) ∧
    (∀ a b : addrtype_t, a.val < b.val ↔ a.specRank < b.specRank) ∧
    (∀ a b : addrtype_t, a.isICAO = true → b.isICAO = false → a.val < b.val) ∧
    (∀ a : addrtype_t, a.val ≤ ADDR_UNKNOWN.val ∧ (a.val = ADDR_UNKNOWN.val ↔ a = ADDR_UNKNOWN)) := by
  refine ⟨by decide, ?_, ?_, ?_, ?_⟩
  · intro a; cases a <;> decide
  · intro a b; cases a <;> cases b <;> decide
  · intro a b; cases a <;> cases b <;> decide
  · intro a; cases a <;> decide

/-- Witness for C2 at an ICAO type and a non-ICAO type: `ADDR_TISB_ICAO`, the last
ICAO type, is still of higher priority than `ADDR_ADSB_OTHER`, the first non-ICAO one. -/
theorem addrtype_priority_order_witness :
    ADDR_TISB_ICAO.isICAO = true ∧ ADDR_ADSB_OTHER.isICAO = false ∧
      ADDR_TISB_ICAO.val < ADDR_ADSB_OTHER.val :=
  ⟨rfl, rfl, addrtype_priority_order.2.2.2.1 ADDR_TISB_ICAO ADDR_ADSB_OTHER rfl rfl⟩

/-- C3: `MODES_NON_ICAO_ADDRESS` is the single bit `1<<24` (only bit 24 is set), and
for every 24-bit address `a`: the flag bit is clear in `a`; setting the flag and
masking with `0xFFFFFF` gives `a` back; the flagged value differs from every 24-bit
address; it still fits the 32-bit `addr` field; and the flag bit is set in it.  So a
stored address carries the flag bit exactly when it is the flagged (non-ICAO) form. -/
theorem non_icao_flag_outside_address_range (a : Nat) (h : a < 2 ^ 24) :
    (MODES_NON_ICAO_ADDRESS = 1 <<< 24 ∧
      ∀ i : Nat, MODES_NON_ICAO_ADDRESS.testBit i = decide (i = 24)) ∧
    a &&& MODES_NON_ICAO_ADDRESS = 0 ∧
    (a ||| MODES_NON_ICAO_ADDRESS) &&& 0xFFFFFF = a ∧
    (∀ b : Nat, b < 2 ^ 24 → a ||| MODES_NON_ICAO_ADDRESS ≠ b) ∧
    a ||| MODES_NON_ICAO_ADDRESS < 2 ^ addr_width ∧
    (a ||| MODES_NON_ICAO_ADDRESS) &&& MODES_NON_ICAO_ADDRESS ≠ 0 := by
  refine ⟨⟨rfl, ?_⟩, and_flag_eq_zero a h, flagged_and_mask a h, ?_, ?_, ?_⟩
  · intro i
    rw [flag_eq_two_pow, Nat.testBit_two_pow]
    by_cases hi : i = 24
    · subst hi; rfl
    · have hi2 : ¬ (24 = i) := fun e => hi e.symm
      simp [hi, hi2]
  · intro b hb
    rw [or_flag_eq_add a h]
    omega
  · rw [or_flag_eq_add a h]
    have hw : (2 : Nat) ^ addr_width = 2 ^ 32 := rfl
    rw [hw]
    omega
  · rw [flagged_and_flag a]
    decide

/-- Witness for C3 at the 24-bit address `0xA1B2C3`. -/
theorem non_icao_flag_outside_address_range_witness :
    0xA1B2C3 < 2 ^ 24 ∧
    0xA1B2C3 &&& MODES_NON_ICAO_ADDRESS = 0 ∧
    (0xA1B2C3 ||| MODES_NON_ICAO_ADDRESS) &&& 0xFFFFFF = 0xA1B2C3 ∧
    0xA1B2C3 ||| MODES_NON_ICAO_ADDRESS < 2 ^ addr_width ∧
    (0xA1B2C3 ||| MODES_NON_ICAO_ADDRESS) &&& MODES_NON_ICAO_ADDRESS ≠ 0 :=
  have t := non_icao_flag_outside_address_range 0xA1B2C3 (by decide)
  ⟨by decide, t.2.1, t.2.2.1, t.2.2.2.2.1, t.2.2.2.2.2⟩

/-- C4: the frame-size constants give exactly the two Mode S frame lengths:
`MODES_SHORT_MSG_BITS = 8 * MODES_SHORT_MSG_BYTES = 56` and
`MODES_LONG_MSG_BITS = 8 * MODES_LONG_MSG_BYTES = 112`; the long frame is exactly twice
the short one; and the raw buffers `msg` and `verbatim` of `struct modesMessage` are
`MODES_LONG_MSG_BYTES = 14` bytes, which holds a short frame, a long frame and a
`MODEAC_MSG_BYTES`-wide Mode A/C message. -/
theorem frame_size_constants :
    (MODES_SHORT_MSG_BITS = 8 * MODES_SHORT_MSG_BYTES ∧ MODES_SHORT_MSG_BITS = 56) ∧
    (MODES_LONG_MSG_BITS = 8 * MODES_LONG_MSG_BYTES ∧ MODES_LONG_MSG_BITS = 112) ∧
    (MODES_LONG_MSG_BITS = 2 * MODES_SHORT_MSG_BITS ∧
      MODES_LONG_MSG_BYTES = 2 * MODES_SHORT_MSG_BYTES) ∧
    (modesMessage.msg_length = MODES_LONG_MSG_BYTES ∧
      modesMessage.verbatim_length = MODES_LONG_MSG_BYTES ∧
      MODES_LONG_MSG_BYTES = 14) ∧
    (MODES_SHORT_MSG_BITS ≤ 8 * modesMessage.msg_length ∧
      MODES_LONG_MSG_BITS ≤ 8 * modesMessage.msg_length ∧
      MODES_SHORT_MSG_BITS ≤ 8 * modesMessage.verbatim_length ∧
      MODES_LONG_MSG_BITS ≤ 8 * modesMessage.verbatim_length) ∧
    (MODEAC_MSG_BYTES ≤ modesMessage.msg_length ∧
      MODEAC_MSG_BYTES ≤ modesMessage.verbatim_length) := by
  refine ⟨?_, ?_, ?_, ?_, ?_, ?_⟩ <;> decide

/-- C5: for every ring state with both indices in `[0, MODES_MAG_BUFFERS)`, the ring
holds no unprocessed (filled) buffer if and only if `first_filled_buffer` equals
`first_free_buffer`; equivalently the number of filled slots,
`(first_free_buffer - first_filled_buffer) mod MODES_MAG_BUFFERS`, is 0 exactly when
the two indices meet.  The formula is the length of the walk from the consumer index
to the producer index, and one lap of fuel is always enough for that walk. -/
theorem ring_empty_iff_indices_meet (m : Modes)
    (hfree : m.first_free_buffer < MODES_MAG_BUFFERS)
    (hfilled : m.first_filled_buffer < MODES_MAG_BUFFERS) :
    (m.filledSlots = [] ↔ m.first_filled_buffer = m.first_free_buffer) ∧
    (m.filledCount = 0 ↔ m.first_filled_buffer = m.first_free_buffer) ∧
    ((m.filledSlots.length : Int) = m.filledCount) ∧
    (∀ extra : Nat,
      Modes.slotsFrom (MODES_MAG_BUFFERS + extra) m.first_filled_buffer m.first_free_buffer
        = m.filledSlots) := by
  have hN : MODES_MAG_BUFFERS = 12 := rfl
  rw [hN] at hfree hfilled
  have t := ring_walk_table ⟨m.first_free_buffer, hfree⟩ ⟨m.first_filled_buffer, hfilled⟩
  simp only [] at t
  unfold Modes.filledSlots Modes.filledCount
  rw [hN, Nat.cast_ofNat]
  refine ⟨t.1, ?_, t.2, ?_⟩
  · omega
  · intro extra
    apply slotsFrom_more_fuel
    have hlen := t.2
    omega

/-- Witness for C5 at a state whose five filled slots wrap around the end of the
ring (consumer at 9, producer at 2). -/
theorem ring_empty_iff_indices_meet_witness :
    (Modes.wrappedState.first_free_buffer < MODES_MAG_BUFFERS ∧
      Modes.wrappedState.first_filled_buffer < MODES_MAG_BUFFERS) ∧
    (Modes.wrappedState.filledSlots = [] ↔
      Modes.wrappedState.first_filled_buffer = Modes.wrappedState.first_free_buffer) ∧
    (Modes.wrappedState.filledCount = 0 ↔
      Modes.wrappedState.first_filled_buffer = Modes.wrappedState.first_free_buffer) ∧
    ((Modes.wrappedState.filledSlots.length : Int) = Modes.wrappedState.filledCount) :=
  have t := ring_empty_iff_indices_meet Modes.wrappedState (by decide) (by decide)
  ⟨⟨by decide, by decide⟩, t.1, t.2.1, t.2.2.1⟩

/-- C6: the magnitude-buffer ring has `N = MODES_MAG_BUFFERS = 12` slots, the declared
length of `Modes.mag_buffers`; `N` is at least 4; and `N` is strictly smaller than
`MODES_RTL_BUFFERS = 16`, as the header comment asks for flow control to work. -/
theorem mag_ring_size :
    MODES_MAG_BUFFERS = 12 ∧
    Modes.mag_buffers_length = MODES_MAG_BUFFERS ∧
    4 ≤ MODES_MAG_BUFFERS ∧
    MODES_RTL_BUFFERS = 16 ∧
    MODES_MAG_BUFFERS < MODES_RTL_BUFFERS := by
  refine ⟨?_, ?_, ?_, ?_, ?_⟩ <;> decide

/-- C7: for every `datasource_t` value `s`, the test `s >= SOURCE_MODE_S_CHECKED` holds
exactly when `s` is `SOURCE_MODE_S_CHECKED`, `SOURCE_TISB` or `SOURCE_ADSB`; it fails
for `SOURCE_INVALID`, `SOURCE_MODE_AC`, `SOURCE_MLAT` and `SOURCE_MODE_S`. -/
theorem source_at_least_checked :
    (∀ s : datasource_t,
      SOURCE_MODE_S_CHECKED.val ≤ s.val ↔
        (s = SOURCE_MODE_S_CHECKED ∨ s = SOURCE_TISB ∨ s = SOURCE_ADSB)) ∧
    ¬ (SOURCE_MODE_S_CHECKED.val ≤ SOURCE_INVALID.val) ∧
    ¬ (SOURCE_MODE_S_CHECKED.val ≤ SOURCE_MODE_AC.val) ∧
    ¬ (SOURCE_MODE_S_CHECKED.val ≤ SOURCE_MLAT.val) ∧
    ¬ (SOURCE_MODE_S_CHECKED.val ≤ SOURCE_MODE_S.val) := by
  refine ⟨?_, by decide, by decide, by decide, by decide⟩
  intro s
  cases s <;> decide

/-- C8: the default display TTL is 60 seconds: `MODES_INTERACTIVE_DISPLAY_TTL`, a
number of milliseconds, equals `60 * 1000 = 60000`, a whole number of seconds, and
fits the `uint64_t` field `Modes.interactive_display_ttl` it is the default for. -/
theorem display_ttl_default :
    MODES_INTERACTIVE_DISPLAY_TTL = 60 * 1000 ∧
    MODES_INTERACTIVE_DISPLAY_TTL = 60000 ∧
    MODES_INTERACTIVE_DISPLAY_TTL / 1000 = 60 ∧
    MODES_INTERACTIVE_DISPLAY_TTL % 1000 = 0 ∧
    MODES_INTERACTIVE_DISPLAY_TTL < 2 ^ Modes.interactive_display_ttl_width := by
  refine ⟨?_, ?_, ?_, ?_, ?_⟩ <;> decide

/-- C9: the rolling JSON history has exactly 120 slots written 30 seconds apart:
`HISTORY_SIZE = 120` is the declared length of `Modes.json_aircraft_history`,
`HISTORY_INTERVAL = 30 * 1000` ms; for every value of `json_aircraft_history_next`
the slot index `json_aircraft_history_next mod HISTORY_SIZE` lies in `[0, 120)`, and
for non-negative values the C remainder `%` is that same index; the whole ring spans
`HISTORY_SIZE * HISTORY_INTERVAL = 3,600,000` ms, one hour. -/
theorem history_ring_constants :
    (HISTORY_SIZE = 120 ∧ Modes.json_aircraft_history_length = HISTORY_SIZE) ∧
    (HISTORY_INTERVAL = 30 * 1000 ∧ HISTORY_INTERVAL = 30000) ∧
    (∀ m : Modes,
      0 ≤ m.json_aircraft_history_next % (HISTORY_SIZE : Int) ∧
      m.json_aircraft_history_next % (HISTORY_SIZE : Int) < 120 ∧
      (m.json_aircraft_history_next % (HISTORY_SIZE : Int)).toNat
        < Modes.json_aircraft_history_length) ∧
    (∀ n : Nat, Int.tmod (n : Int) (HISTORY_SIZE : Int) = (n : Int) % (HISTORY_SIZE : Int)) ∧
    (HISTORY_SIZE * HISTORY_INTERVAL = 3600000 ∧ 3600000 = 60 * 60 * 1000) := by
  have hsz : (HISTORY_SIZE : Int) = 120 := rfl
  have hlen : Modes.json_aircraft_history_length = 120 := rfl
  refine ⟨by decide, by decide, ?_, ?_, by decide⟩
  · intro m
    rw [hsz, hlen]
    omega
  · intro n
    exact Int.tmod_eq_emod (Int.ofNat_nonneg n) (by decide)

/-- C10: the 8 microsecond preamble (`MODES_PREAMBLE_US = 8`) spans exactly
`8 * 12/5 = 96/5` (that is 19.2) samples at 2.4 Msps, and
`MODES_OS_PREAMBLE_SAMPLES = 20` is the smallest whole number of samples that covers
it: it equals the ceiling of `MODES_PREAMBLE_US * 12/5`, and a whole number of
samples covers the preamble exactly when it is at least `MODES_OS_PREAMBLE_SAMPLES`. -/
theorem os_preamble_samples_is_ceiling :
    MODES_PREAMBLE_US = 8 ∧
    (preamble_span = 96 / 5 ∧ preamble_span = 192 / 10) ∧
    MODES_OS_PREAMBLE_SAMPLES = 20 ∧
    (MODES_OS_PREAMBLE_SAMPLES : Int) = ⌈(MODES_PREAMBLE_US : ℚ) * (12 / 5)⌉ ∧
    (∀ n : Nat, preamble_span ≤ (n : ℚ) ↔ MODES_OS_PREAMBLE_SAMPLES ≤ n) := by
  have hspan : preamble_span = 96 / 5 := by
    unfold preamble_span samples_per_us MODES_PREAMBLE_US
    norm_num
  refine ⟨rfl, ⟨hspan, ?_⟩, rfl, ?_, ?_⟩
  · rw [hspan]; norm_num
  · symm
    rw [Int.ceil_eq_iff]
    unfold MODES_OS_PREAMBLE_SAMPLES MODES_PREAMBLE_US
    constructor <;> norm_num
  · intro n
    rw [hspan]
    unfold MODES_OS_PREAMBLE_SAMPLES
    constructor
    · intro h
      by_contra hlt
      have hn : n ≤ 19 := by omega
      have hq : (n : ℚ) ≤ 19 := by exact_mod_cast hn
      linarith
    · intro h
      have hq : (20 : ℚ) ≤ (n : ℚ) := by exact_mod_cast h
      linarith

/-- C11: for every pair of indices in `[0, MODES_MAG_BUFFERS)` the number of filled
slots `(first_free_buffer - first_filled_buffer) mod MODES_MAG_BUFFERS` is at most
`MODES_MAG_BUFFERS - 1 = 11`, and so is the length of the walk over the filled slots:
no state has all 12 slots filled.  The count is 11 exactly when advancing
`first_free_buffer` would make it equal to `first_filled_buffer`, and advancing in
that state gives the empty ring (no filled slot, count 0) instead of a full one. -/
theorem ring_holds_at_most_eleven (m : Modes)
    (hfree : m.first_free_buffer < MODES_MAG_BUFFERS)
    (hfilled : m.first_filled_buffer < MODES_MAG_BUFFERS) :
    MODES_MAG_BUFFERS - 1 = 11 ∧
    m.filledCount ≤ ((MODES_MAG_BUFFERS - 1 : Nat) : Int) ∧
    m.filledSlots.length ≤ MODES_MAG_BUFFERS - 1 ∧
    m.filledSlots.length ≠ MODES_MAG_BUFFERS ∧
    (m.filledCount = 11 ↔ Modes.nextBuffer m.first_free_buffer = m.first_filled_buffer) ∧
    (Modes.nextBuffer m.first_free_buffer = m.first_filled_buffer →
      m.advanceFree.filledSlots = [] ∧ m.advanceFree.filledCount = 0) := by
  have hN : MODES_MAG_BUFFERS = 12 := rfl
  rw [hN] at hfree hfilled
  have t := ring_walk_table ⟨m.first_free_buffer, hfree⟩ ⟨m.first_filled_buffer, hfilled⟩
  simp only [] at t
  have hlen := t.2
  refine ⟨rfl, ?_⟩
  unfold Modes.filledSlots Modes.filledCount Modes.advanceFree Modes.nextBuffer
  simp only [hN, Nat.cast_ofNat]
  refine ⟨?_, ?_, ?_, ?_, ?_⟩
  · omega
  · omega
  · omega
  · omega
  · intro hmeet
    rw [hmeet]
    constructor
    · simp [Modes.slotsFrom]
    · simp

/-- Witness for C11 at the state with eleven filled slots (consumer at 9, producer
at 8): the count is 11, and one more advance of the producer would empty the ring. -/
theorem ring_holds_at_most_eleven_witness :
    (Modes.elevenFilledState.first_free_buffer < MODES_MAG_BUFFERS ∧
      Modes.elevenFilledState.first_filled_buffer < MODES_MAG_BUFFERS ∧
      Modes.nextBuffer Modes.elevenFilledState.first_free_buffer
        = Modes.elevenFilledState.first_filled_buffer) ∧
    Modes.elevenFilledState.filledCount ≤ ((MODES_MAG_BUFFERS - 1 : Nat) : Int) ∧
    Modes.elevenFilledState.filledSlots.length ≤ MODES_MAG_BUFFERS - 1 ∧
    (Modes.elevenFilledState.advanceFree.filledSlots = [] ∧
      Modes.elevenFilledState.advanceFree.filledCount = 0) :=
  have t := ring_holds_at_most_eleven Modes.elevenFilledState (by decide) (by decide)
  ⟨⟨by decide, by decide, by decide⟩, t.2.1, t.2.2.1, t.2.2.2.2.2 (by decide)⟩

/-- C12, as stated, fails: `MODES_OS_SHORT_MSG_SAMPLES` and
`MODES_OS_LONG_MSG_SAMPLES` are not both the ceiling of their frame length times
12/5, because `MODES_LONG_MSG_BITS * 12/5 = 268.8` has ceiling 269 while
`MODES_OS_LONG_MSG_SAMPLES` is 268, which is less than the 268.8 samples of the
long frame. -/
theorem os_long_msg_samples_not_ceiling :
    ¬ ((MODES_OS_SHORT_MSG_SAMPLES : Int) = ⌈(MODES_SHORT_MSG_BITS : ℚ) * (12 / 5)⌉ ∧
        (MODES_OS_LONG_MSG_SAMPLES : Int) = ⌈(MODES_LONG_MSG_BITS : ℚ) * (12 / 5)⌉) := by
  rintro ⟨-, hlong⟩
  have hbits : MODES_LONG_MSG_BITS = 112 := rfl
  have hos : MODES_OS_LONG_MSG_SAMPLES = 268 := rfl
  have hceil : ⌈((112 : Nat) : ℚ) * (12 / 5)⌉ = 269 := by
    rw [Int.ceil_eq_iff]
    constructor <;> norm_num
  rw [hbits, hos, hceil] at hlong
  omega

/-- C12, amended: at 2.4 samples per bit the short frame spans `56 * 12/5 = 672/5`
(134.4) samples and `MODES_OS_SHORT_MSG_SAMPLES = 135` is its ceiling, the smallest
whole number of samples that covers it; the long frame spans `112 * 12/5 = 1344/5`
(268.8) samples and `MODES_OS_LONG_MSG_SAMPLES = 268` is its floor, one less than the
smallest whole cover 269.  The oversampled preamble and long-message counts add up to
exactly the samples of preamble plus long frame, `20 + 268 = 288 = 96/5 + 1344/5`. -/
theorem os_msg_samples_rounding :
    (short_msg_span = 672 / 5 ∧ long_msg_span = 1344 / 5) ∧
    (MODES_OS_SHORT_MSG_SAMPLES = 135 ∧
      (MODES_OS_SHORT_MSG_SAMPLES : Int) = ⌈short_msg_span⌉ ∧
      ∀ n : Nat, short_msg_span ≤ (n : ℚ) ↔ MODES_OS_SHORT_MSG_SAMPLES ≤ n) ∧
    (MODES_OS_LONG_MSG_SAMPLES = 268 ∧
      (MODES_OS_LONG_MSG_SAMPLES : Int) = ⌊long_msg_span⌋ ∧
      (MODES_OS_LONG_MSG_SAMPLES : Int) + 1 = ⌈long_msg_span⌉ ∧
      (MODES_OS_LONG_MSG_SAMPLES : ℚ) < long_msg_span ∧
      ∀ n : Nat, long_msg_span ≤ (n : ℚ) ↔ MODES_OS_LONG_MSG_SAMPLES + 1 ≤ n) ∧
    ((MODES_OS_PREAMBLE_SAMPLES + MODES_OS_LONG_MSG_SAMPLES : Nat) : ℚ)
      = preamble_span + long_msg_span := by
  have hshort : short_msg_span = 672 / 5 := by
    unfold short_msg_span samples_per_us MODES_SHORT_MSG_BITS MODES_SHORT_MSG_BYTES
    norm_num
  have hlong : long_msg_span = 1344 / 5 := by
    unfold long_msg_span samples_per_us MODES_LONG_MSG_BITS MODES_LONG_MSG_BYTES
    norm_num
  have hpre : preamble_span = 96 / 5 := by
    unfold preamble_span samples_per_us MODES_PREAMBLE_US
    norm_num
  refine ⟨⟨hshort, hlong⟩, ⟨rfl, ?_, ?_⟩, ⟨rfl, ?_, ?_, ?_, ?_⟩, ?_⟩
  · symm
    rw [hshort, Int.ceil_eq_iff]
    unfold MODES_OS_SHORT_MSG_SAMPLES
    constructor <;> norm_num
  · intro n
    rw [hshort]
    unfold MODES_OS_SHORT_MSG_SAMPLES
    constructor
    · intro h
      by_contra hlt
      have hn : n ≤ 134 := by omega
      have hq : (n : ℚ) ≤ 134 := by exact_mod_cast hn
      linarith
    · intro h
      have hq : (135 : ℚ) ≤ (n : ℚ) := by exact_mod_cast h
      linarith
  · symm
    rw [hlong, Int.floor_eq_iff]
    unfold MODES_OS_LONG_MSG_SAMPLES
    constructor <;> norm_num
  · symm
    rw [hlong, Int.ceil_eq_iff]
    unfold MODES_OS_LONG_MSG_SAMPLES
    constructor <;> norm_num
  · rw [hlong]
    unfold MODES_OS_LONG_MSG_SAMPLES
    norm_num
  · intro n
    rw [hlong]
    unfold MODES_OS_LONG_MSG_SAMPLES
    constructor
    · intro h
      by_contra hlt
      have hn : n ≤ 268 := by omega
      have hq : (n : ℚ) ≤ 268 := by exact_mod_cast hn
      linarith
    · intro h
      have hq : (269 : ℚ) ≤ (n : ℚ) := by exact_mod_cast h
      linarith
  · rw [hpre, hlong]
    unfold MODES_OS_PREAMBLE_SAMPLES MODES_OS_LONG_MSG_SAMPLES
    norm_num

/-- C13 on the code: `MODES_OS_PREAMBLE_SIZE` is `sizeof(uint16_t) = 2` times
`MODES_OS_PREAMBLE_SAMPLES`, but `MODES_OS_LONG_MSG_SIZE` and
`MODES_OS_SHORT_MSG_SIZE` are built from the plain sample counts
`MODES_LONG_MSG_SAMPLES = 224` and `MODES_SHORT_MSG_SAMPLES = 112`: they evaluate to
448 and 224, the same as `MODES_LONG_MSG_SIZE` and `MODES_SHORT_MSG_SIZE`, and not to
`2 * MODES_OS_LONG_MSG_SAMPLES = 536` and `2 * MODES_OS_SHORT_MSG_SAMPLES = 270`. -/
theorem os_msg_size_uses_plain_sample_count :
    sizeof_uint16_t = 2 ∧
    (MODES_OS_PREAMBLE_SIZE = 2 * MODES_OS_PREAMBLE_SAMPLES ∧ MODES_OS_PREAMBLE_SIZE = 40) ∧
    (MODES_OS_LONG_MSG_SIZE = 448 ∧ 2 * MODES_OS_LONG_MSG_SAMPLES = 536 ∧
      MODES_OS_LONG_MSG_SIZE ≠ 2 * MODES_OS_LONG_MSG_SAMPLES ∧
      MODES_OS_LONG_MSG_SIZE = 2 * MODES_LONG_MSG_SAMPLES ∧
      MODES_OS_LONG_MSG_SIZE = MODES_LONG_MSG_SIZE) ∧
    (MODES_OS_SHORT_MSG_SIZE = 224 ∧ 2 * MODES_OS_SHORT_MSG_SAMPLES = 270 ∧
      MODES_OS_SHORT_MSG_SIZE ≠ 2 * MODES_OS_SHORT_MSG_SAMPLES ∧
      MODES_OS_SHORT_MSG_SIZE = 2 * MODES_SHORT_MSG_SAMPLES ∧
      MODES_OS_SHORT_MSG_SIZE = MODES_SHORT_MSG_SIZE) := by
  refine ⟨?_, ?_, ?_, ?_⟩ <;> decide

end Dump1090
